import Mathlib

/-!
Shallow embedding of the certificate lifecycle manager
(`localhttps/cert/cert.py`, class `Certificate`).

Filesystem state is modelled explicitly: a path is its list of components
from the filesystem root, and the state records which files and which
directories are present.  The asynchronous code of the source is strictly
sequential apart from fan-out/fan-in joins (`asyncio.gather`), which are
modelled by performing the joined operations together before the next step
and recording them as a single joint event in the execution trace.
-/

/-- A filesystem path, as its list of components from the root. -/
abbrev FsPath := List String

/-- Render a path the way `str(await p.resolve())` does: an absolute
string with `/` separators. -/
def fsPathStr (p : FsPath) : String := "/" ++ String.intercalate "/" p

/-- Filesystem state: the set of regular files present and the set of
directories present (each as a list without meaningful order). -/
structure FS where
  files : List FsPath
  dirs : List FsPath
deriving DecidableEq

/-- Source `p.exists()` for a regular file. -/
def FS.fileExists (fs : FS) (p : FsPath) : Bool := fs.files.contains p

/-- Source `p.exists()` for a directory. -/
def FS.dirExists (fs : FS) (p : FsPath) : Bool := fs.dirs.contains p

/-- Source `p.unlink(missing_ok=True)`: removing an absent file is a no-op. -/
def FS.unlink (fs : FS) (p : FsPath) : FS :=
  { fs with files := fs.files.filter (fun q => q != p) }

/-- Source `p.write_text(...)`: the file exists afterwards (content of the one
file whose text matters, the config, is modelled by `confText`). -/
def FS.writeFile (fs : FS) (p : FsPath) : FS :=
  { fs with files := if fs.files.contains p then fs.files else p :: fs.files }

/-- All nonempty prefixes of a path: the directory and its parents. -/
def fsAncestorDirs (p : FsPath) : List FsPath :=
  (List.range p.length).map (fun i => p.take (i + 1))

/-- Source `p.mkdir(parents=True, exist_ok=True)`. -/
def FS.mkdirParents (fs : FS) (p : FsPath) : FS :=
  { fs with dirs := fs.dirs ++ (fsAncestorDirs p).filter (fun d => !(fs.dirs.contains d)) }

/-- Is `q` an immediate child of directory `d`? -/
def FsPath.isChildOf (q d : FsPath) : Bool :=
  q.length = d.length + 1 && q.take d.length == d

/-- Source `d.glob(<asterisk>)`: every entry (file or directory) directly inside `d`. -/
def FS.childEntries (fs : FS) (d : FsPath) : List FsPath :=
  (fs.files ++ fs.dirs).filter (fun q => FsPath.isChildOf q d)

/-- Source `d.rmdir()` (only invoked by the source once the directory was seen empty). -/
def FS.rmdir (fs : FS) (d : FsPath) : FS :=
  { fs with dirs := fs.dirs.filter (fun q => q != d) }

/-- Modelled from the spec: the certification authority collaborator
(`localhttps/cert/ca.py`, not part of the analysed sources) is, to the core,
just three resolvable file paths — CA private key, CA root certificate and
CA serial-number file. -/
structure CertificationAuthority where
  keyPath : FsPath
  pemPath : FsPath
  srlPath : FsPath
deriving DecidableEq

/-- Modelled from the spec: the external command executor
(`localhttps/cmd.py`, not part of the analysed sources) is a black box
`run(tool, args)` reporting success or failure with a diagnostic. -/
abbrev Cmd := String → List String → Except String Unit

/-- The certificate lifecycle manager's stored identity: authority
reference, storage root directory, storage name and DNS domain. -/
structure Certificate where
  authority : CertificationAuthority
  rootPath : FsPath
  name : String
  domain : String
deriving DecidableEq

/-- Source `key_path`: `<root>/<name>.key`. -/
def Certificate.key_path (c : Certificate) : FsPath := c.rootPath ++ [c.name ++ ".key"]

/-- Source `csr_path`: `<root>/<name>.csr`. -/
def Certificate.csr_path (c : Certificate) : FsPath := c.rootPath ++ [c.name ++ ".csr"]

/-- Source `crt_path`: `<root>/<name>.crt`. -/
def Certificate.crt_path (c : Certificate) : FsPath := c.rootPath ++ [c.name ++ ".crt"]

/-- Source `conf_path`: `<root>/<name>.conf`. -/
def Certificate.conf_path (c : Certificate) : FsPath := c.rootPath ++ [c.name ++ ".conf"]

/-- Source `common_name`: the domain itself. -/
def Certificate.common_name (c : Certificate) : String := c.domain

/-- Source `email`: `<domain>@localhttps`. -/
def Certificate.email (c : Certificate) : String := c.domain ++ "@localhttps"

/-- Source `subject_parts`: the fixed ordered list of subject attribute pairs. -/
def Certificate.subject_parts (c : Certificate) : List (String × String) :=
  [ ("C", ""),
    ("ST", ""),
    ("O", ""),
    ("localityName", ""),
    ("commonName", c.common_name),
    ("organizationalUnitName", ""),
    ("emailAddress", c.email) ]

/-- Source `subject`: `/key=value` per pair, in order, with a trailing `/`. -/
def Certificate.subject (c : Certificate) : String :=
  String.join ((c.subject_parts).map (fun kv => "/" ++ kv.1 ++ "=" ++ kv.2)) ++ "/"

/-- Source `exists()`: all four artifacts present (the four checks are issued
concurrently and joined; the result is their conjunction). -/
def Certificate.exists (c : Certificate) (fs : FS) : Bool :=
  fs.fileExists c.key_path && fs.fileExists c.csr_path &&
    fs.fileExists c.crt_path && fs.fileExists c.conf_path


/-- First literal chunk of the f-string template in `_build_certificate_conf`,
up to the first domain interpolation (starts with the newline that follows
the opening quotes). -/
def confLit1 : String :=
  "\n[req]\ndistinguished_name = req_distinguished_name\nreq_extensions = v3_req\n\n[req_distinguished_name]\ncountryName = Country Name (2 letter code)\ncountryName_default = US\nstateOrProvinceName = State or Province Name (full name)\nstateOrProvinceName_default = MN\nlocalityName = Locality Name (eg, city)\nlocalityName_default = Minneapolis\norganizationalUnitName\t= Organizational Unit Name (eg, section)\norganizationalUnitName_default\t= Domain Control Validated\ncommonName = Internet Widgits Ltd\ncommonName_max\t= 64\n\n[ v3_req ]\n# Extensions to add to a certificate request\nbasicConstraints = CA:FALSE\nkeyUsage = nonRepudiation, digitalSignature, keyEncipherment\nsubjectAltName = @alt_names\n\n[alt_names]\nDNS.1 = "

/-- Second literal chunk of the same f-string, between the two domain
interpolations. -/
def confLit2 : String := "\nDNS.2 = *."

/-- The f-string of `_build_certificate_conf` before `.strip()`:
`confLit1 + domain + confLit2 + domain + newline`. -/
def confTemplate (d : String) : String := confLit1 ++ d ++ confLit2 ++ d ++ "\n"

/-- Python `str.strip()`: drop whitespace from both ends. -/
def pyStrip (s : String) : String :=
  String.mk (((s.data.dropWhile Char.isWhitespace).reverse.dropWhile Char.isWhitespace).reverse)

/-- The configuration text written by `_build_certificate_conf`:
the template instantiated at the certificate's domain, stripped. -/
def Certificate.confText (c : Certificate) : String := pyStrip (confTemplate c.domain)

/-- Source `_build_certificate_conf` as a filesystem operation: writes the
config file (its text is `confText`). -/
def Certificate.build_certificate_conf (c : Certificate) (fs : FS) : FS :=
  fs.writeFile c.conf_path

/-- Argument list of the key-generation invocation in `_create_private_key`
(after the tool name `openssl`). -/
def Certificate.genrsaArgs (c : Certificate) : List String :=
  ["genrsa", "-out", fsPathStr c.key_path, "2048"]

/-- Argument list of the CSR invocation in `_create_signing_request`
(after the tool name `openssl`). -/
def Certificate.reqArgs (c : Certificate) : List String :=
  ["req", "-new",
   "-key", fsPathStr c.key_path,
   "-out", fsPathStr c.csr_path,
   "-subj", c.subject,
   "-config", fsPathStr c.conf_path]

/-- The `params` list built in `create` for the signing invocation, as a
function of whether the authority's serial file exists at sign time. -/
def Certificate.signParams (c : Certificate) (srlExists : Bool) : List String :=
  let params := ["-req", "-sha256", "-days", "730",
    "-CA", fsPathStr c.authority.pemPath,
    "-CAkey", fsPathStr c.authority.keyPath,
    "-CAserial", fsPathStr c.authority.srlPath]
  let params := if srlExists then params else params ++ ["-CAcreateserial"]
  params ++ ["-in", fsPathStr c.csr_path,
    "-out", fsPathStr c.crt_path,
    "-extensions", "v3_req",
    "-extfile", fsPathStr c.conf_path]

/-- Source `delete`, first half: the `asyncio.gather` of the four unlinks. -/
def Certificate.unlinkArtifacts (c : Certificate) (fs : FS) : FS :=
  (((fs.unlink c.key_path).unlink c.csr_path).unlink c.crt_path).unlink c.conf_path

/-- Source `delete`: unlink the four artifacts, then remove the root
directory only when it exists and has no remaining entry. -/
def Certificate.delete (c : Certificate) (fs : FS) : FS :=
  let fs1 := c.unlinkArtifacts fs
  if fs1.dirExists c.rootPath then
    if (fs1.childEntries c.rootPath).isEmpty then fs1.rmdir c.rootPath else fs1
  else fs1

/-- One observable step of `create`, for the execution trace.  The
`asyncio.gather` of the config write and the key generation is one joint
event. -/
inductive Event where
  | reset : Event
  | mkdirRoot : FsPath → Event
  | gather2 : Event → Event → Event
  | writeConf : FsPath → Event
  | run : String → List String → Event
  | chmod : FsPath → Nat → Event
deriving DecidableEq

deriving instance DecidableEq for Except

/-- Outcome of a `create` call: the reported result (an error carries the
failing tool's diagnostic), the final filesystem state, and the trace of
steps that were performed, in order. -/
structure CreateResult where
  result : Except String Unit
  fs : FS
  trace : List Event
deriving DecidableEq

/-- Source `create`: reset, ensure directory, gather(config write, key
generation), CSR creation, signing (with the conditional serial-file
flag), permissions.  Each external-tool invocation is modelled from the
spec as producing its `-out` file on success; a failure aborts the
remaining steps and propagates the diagnostic. -/
def Certificate.create (c : Certificate) (cmd : Cmd) (fs : FS) : CreateResult :=
  let fs0 := c.delete fs
  let fs1 := fs0.mkdirParents c.rootPath
  let fs2 := c.build_certificate_conf fs1
  let ev3 := Event.gather2 (Event.writeConf c.conf_path) (Event.run "openssl" c.genrsaArgs)
  match cmd "openssl" c.genrsaArgs with
  | Except.error e =>
    { result := Except.error e, fs := fs2,
      trace := [Event.reset, Event.mkdirRoot c.rootPath, ev3] }
  | Except.ok _ =>
    let fs3 := fs2.writeFile c.key_path
    match cmd "openssl" c.reqArgs with
    | Except.error e =>
      { result := Except.error e, fs := fs3,
        trace := [Event.reset, Event.mkdirRoot c.rootPath, ev3,
          Event.run "openssl" c.reqArgs] }
    | Except.ok _ =>
      let fs4 := fs3.writeFile c.csr_path
      let srlExists := fs4.fileExists c.authority.srlPath
      match cmd "openssl" ("x509" :: c.signParams srlExists) with
      | Except.error e =>
        { result := Except.error e, fs := fs4,
          trace := [Event.reset, Event.mkdirRoot c.rootPath, ev3,
            Event.run "openssl" c.reqArgs,
            Event.run "openssl" ("x509" :: c.signParams srlExists)] }
      | Except.ok _ =>
        let fs5 := fs4.writeFile c.crt_path
        { result := Except.ok (), fs := fs5,
          trace := [Event.reset, Event.mkdirRoot c.rootPath, ev3,
            Event.run "openssl" c.reqArgs,
            Event.run "openssl" ("x509" :: c.signParams srlExists),
            Event.chmod c.crt_path 420,
            Event.chmod c.key_path 420] }

/-! Concrete instances used by witnesses and counterexamples. -/

/-- A concrete authority for witnesses. -/
def caEx : CertificationAuthority :=
  { keyPath := ["ca", "ca.key"], pemPath := ["ca", "ca.pem"], srlPath := ["ca", "ca.srl"] }

/-- A concrete certificate for witnesses: name `example`, domain
`example.test`, storage root `/certs`. -/
def certEx : Certificate :=
  { authority := caEx, rootPath := ["certs"], name := "example", domain := "example.test" }

/-- C1: for every Certificate, `exists()` returns true if and only if all
four artifact files (key, CSR, signed certificate, config) are present; if
any one of the four is absent it returns false. -/
theorem exists_iff_all_artifacts (c : Certificate) (fs : FS) :
    c.exists fs = true ↔
      (c.key_path ∈ fs.files ∧ c.csr_path ∈ fs.files ∧
        c.crt_path ∈ fs.files ∧ c.conf_path ∈ fs.files) := by
  simp [Certificate.exists, FS.fileExists, and_assoc]

/-- C6: for every domain the subject string is the `/key=value`
concatenation of the seven subject parts in fixed order with a trailing
slash, and for domain `example.test` it is exactly the expected literal. -/
theorem subject_format :
    (∀ c : Certificate,
      c.subject = "/C=/ST=/O=/localityName=/commonName=" ++ c.domain ++
        "/organizationalUnitName=/emailAddress=" ++ c.domain ++ "@localhttps/") ∧
    (∀ (a : CertificationAuthority) (r : FsPath) (n : String),
      (Certificate.mk a r n "example.test").subject =
        "/C=/ST=/O=/localityName=/commonName=example.test/organizationalUnitName=/emailAddress=example.test@localhttps/") := by
  constructor
  · intro c
    apply String.ext
    simp only [Certificate.subject, Certificate.subject_parts, Certificate.common_name,
      Certificate.email, String.join, List.map, List.foldl, String.data_append,
      List.append_assoc]
    rfl
  · intro a r n
    rfl

/-- Unlinking the artifacts leaves the directory set untouched. -/
theorem unlinkArtifacts_dirs (c : Certificate) (fs : FS) :
    (c.unlinkArtifacts fs).dirs = fs.dirs := rfl

/-- Membership in the files left by the four unlinks. -/
theorem mem_unlinkArtifacts (c : Certificate) (fs : FS) (p : FsPath) :
    p ∈ (c.unlinkArtifacts fs).files ↔
      (p ∈ fs.files ∧ p ≠ c.key_path ∧ p ≠ c.csr_path ∧
        p ≠ c.crt_path ∧ p ≠ c.conf_path) := by
  simp only [Certificate.unlinkArtifacts, FS.unlink, List.mem_filter, bne_iff_ne]
  tauto

/-- Whatever branch `delete` takes, the surviving files are those of the
four unlinks. -/
theorem delete_files (c : Certificate) (fs : FS) :
    (c.delete fs).files = (c.unlinkArtifacts fs).files := by
  simp only [Certificate.delete]
  by_cases h1 : (c.unlinkArtifacts fs).dirExists c.rootPath <;>
    by_cases h2 : ((c.unlinkArtifacts fs).childEntries c.rootPath).isEmpty <;>
    simp [h1, h2, FS.rmdir]

/-- The directories surviving `delete`: the root goes exactly when it
existed and was empty after the unlinks. -/
theorem delete_dirs (c : Certificate) (fs : FS) :
    (c.delete fs).dirs =
      (if (c.unlinkArtifacts fs).dirExists c.rootPath &&
          ((c.unlinkArtifacts fs).childEntries c.rootPath).isEmpty
        then fs.dirs.filter (fun d => d != c.rootPath)
        else fs.dirs) := by
  simp only [Certificate.delete]
  by_cases h1 : (c.unlinkArtifacts fs).dirExists c.rootPath <;>
    by_cases h2 : ((c.unlinkArtifacts fs).childEntries c.rootPath).isEmpty <;>
    simp [h1, h2, FS.rmdir, unlinkArtifacts_dirs]

/-- C4: `delete` removes all four artifact files; apart from these four the
files are untouched; the root directory is removed exactly when, after the
four unlinks, it exists and has no remaining entry, and otherwise the
directories (and so any remaining entry) are left intact. -/
theorem delete_characterization (c : Certificate) (fs : FS) :
    (c.key_path ∉ (c.delete fs).files ∧ c.csr_path ∉ (c.delete fs).files ∧
      c.crt_path ∉ (c.delete fs).files ∧ c.conf_path ∉ (c.delete fs).files) ∧
    (c.delete fs).files = (c.unlinkArtifacts fs).files ∧
    (c.delete fs).dirs =
      (if (c.unlinkArtifacts fs).dirExists c.rootPath &&
          ((c.unlinkArtifacts fs).childEntries c.rootPath).isEmpty
        then fs.dirs.filter (fun d => d != c.rootPath)
        else fs.dirs) := by
  refine ⟨⟨?_, ?_, ?_, ?_⟩, delete_files c fs, delete_dirs c fs⟩ <;>
    rw [delete_files c fs] <;> intro h
  · exact ((mem_unlinkArtifacts c fs _).mp h).2.1 rfl
  · exact ((mem_unlinkArtifacts c fs _).mp h).2.2.1 rfl
  · exact ((mem_unlinkArtifacts c fs _).mp h).2.2.2.1 rfl
  · exact ((mem_unlinkArtifacts c fs _).mp h).2.2.2.2 rfl

/-- A filesystem whose only object is an (empty) pre-existing storage root
directory `/certs`; none of the four artifact files exist. -/
def fsEmptyRootDir : FS := { files := [], dirs := [["certs"]] }

/-- C9 counterexample: on a never-created certificate (none of the four
artifact files present), `delete` does NOT always leave the filesystem
unchanged — a pre-existing empty storage root directory is removed. -/
theorem delete_not_always_unchanged :
    (certEx.key_path ∉ fsEmptyRootDir.files ∧ certEx.csr_path ∉ fsEmptyRootDir.files ∧
      certEx.crt_path ∉ fsEmptyRootDir.files ∧ certEx.conf_path ∉ fsEmptyRootDir.files) ∧
    certEx.delete fsEmptyRootDir ≠ fsEmptyRootDir := by
  refine ⟨by decide, ?_⟩
  intro h
  have : (certEx.delete fsEmptyRootDir).dirs = fsEmptyRootDir.dirs := by rw [h]
  revert this
  decide

/-- C9 (amended): `delete` on a never-created certificate never fails, keeps
every file, and changes nothing except possibly removing the storage root
directory; in particular when the root directory is absent the filesystem
is completely unchanged. -/
theorem delete_never_created
    (c : Certificate) (fs : FS)
    (hk : c.key_path ∉ fs.files) (hs : c.csr_path ∉ fs.files)
    (hr : c.crt_path ∉ fs.files) (hf : c.conf_path ∉ fs.files) :
    (c.delete fs).files = fs.files ∧
    (c.rootPath ∉ fs.dirs → c.delete fs = fs) ∧
    (c.delete fs = fs ∨
      c.delete fs = { fs with dirs := fs.dirs.filter (fun d => d != c.rootPath) }) := by
  have e1 : fs.files.filter (fun q => q != c.key_path) = fs.files := by
    refine List.filter_eq_self.mpr ?_
    intro a ha
    simp only [bne_iff_ne]
    rintro rfl
    exact hk ha
  have e2 : fs.files.filter (fun q => q != c.csr_path) = fs.files := by
    refine List.filter_eq_self.mpr ?_
    intro a ha
    simp only [bne_iff_ne]
    rintro rfl
    exact hs ha
  have e3 : fs.files.filter (fun q => q != c.crt_path) = fs.files := by
    refine List.filter_eq_self.mpr ?_
    intro a ha
    simp only [bne_iff_ne]
    rintro rfl
    exact hr ha
  have e4 : fs.files.filter (fun q => q != c.conf_path) = fs.files := by
    refine List.filter_eq_self.mpr ?_
    intro a ha
    simp only [bne_iff_ne]
    rintro rfl
    exact hf ha
  have hfl : (c.unlinkArtifacts fs).files = fs.files := by
    simp only [Certificate.unlinkArtifacts, FS.unlink]
    rw [e1, e2, e3, e4]
  have hun : c.unlinkArtifacts fs = fs :=
    calc c.unlinkArtifacts fs
        = ⟨(c.unlinkArtifacts fs).files, (c.unlinkArtifacts fs).dirs⟩ := rfl
      _ = ⟨fs.files, fs.dirs⟩ := by rw [hfl, unlinkArtifacts_dirs]
      _ = fs := rfl
  constructor
  · rw [delete_files, hun]
  constructor
  · intro hroot
    have hne : fs.dirExists c.rootPath = false := by
      simp [FS.dirExists, hroot]
    simp only [Certificate.delete, hun]
    simp [hne]
  · simp only [Certificate.delete, hun]
    by_cases h1 : fs.dirExists c.rootPath
    · by_cases h2 : (fs.childEntries c.rootPath).isEmpty
      · right
        simp [h1, h2, FS.rmdir]
      · left
        simp [h1, h2]
    · left
      simp [h1]

/-- Concrete filesystem for the C9 witness: one foreign file in a foreign
directory, and no `/certs` root at all. -/
def fsOther : FS := { files := [["other", "f.txt"]], dirs := [["other"]] }

/-- C9 witness: the amended statement at a concrete input whose storage
root directory does not exist: nothing changes at all. -/
theorem delete_never_created_witness :
    (certEx.key_path ∉ fsOther.files ∧ certEx.csr_path ∉ fsOther.files ∧
      certEx.crt_path ∉ fsOther.files ∧ certEx.conf_path ∉ fsOther.files) ∧
    (certEx.delete fsOther).files = fsOther.files ∧
    certEx.delete fsOther = fsOther :=
  ⟨⟨by decide, by decide, by decide, by decide⟩,
    (delete_never_created certEx fsOther (by decide) (by decide) (by decide) (by decide)).1,
    (delete_never_created certEx fsOther
      (by decide) (by decide) (by decide) (by decide)).2.1 (by decide)⟩

/-- C10: whenever the root directory exists and, after the four unlinks, has
no entry, `delete` removes it — even when none of the four artifacts was
ever created. -/
theorem delete_removes_empty_root
    (c : Certificate) (fs : FS)
    (hdir : c.rootPath ∈ fs.dirs)
    (hempty : ((c.unlinkArtifacts fs).childEntries c.rootPath).isEmpty = true) :
    c.rootPath ∉ (c.delete fs).dirs := by
  have h1 : (c.unlinkArtifacts fs).dirExists c.rootPath = true := by
    simp [FS.dirExists, unlinkArtifacts_dirs, hdir]
  rw [delete_dirs]
  simp [h1, hempty]

/-- C10 witness: a pre-existing empty root directory with no artifact file
at all is removed by `delete`. -/
theorem delete_removes_empty_root_witness :
    certEx.rootPath ∈ fsEmptyRootDir.dirs ∧
    ((certEx.unlinkArtifacts fsEmptyRootDir).childEntries certEx.rootPath).isEmpty = true ∧
    certEx.rootPath ∉ (certEx.delete fsEmptyRootDir).dirs :=
  ⟨by decide, by decide, delete_removes_empty_root certEx fsEmptyRootDir (by decide) (by decide)⟩

/-- A rendered path always starts with a slash. -/
theorem fsPathStr_data (p : FsPath) :
    (fsPathStr p).data = '/' :: (String.intercalate "/" p).data := rfl

/-- A rendered path never equals a string that does not start with a
slash (such as a tool flag). -/
theorem fsPathStr_ne (p : FsPath) (s : String) (hs : s.data.head? ≠ some '/') :
    fsPathStr p ≠ s := by
  intro h
  apply hs
  rw [← h, fsPathStr_data]
  rfl

/-- C5: the signing `params` built by `create` when the authority's serial
file is absent carry the `-CAcreateserial` flag at one fixed position, and
when it is present they are the same list without that one flag; the flag
occurs in no other position. -/
theorem signParams_serial_flag (c : Certificate) :
    c.signParams false =
      ["-req", "-sha256", "-days", "730",
        "-CA", fsPathStr c.authority.pemPath,
        "-CAkey", fsPathStr c.authority.keyPath,
        "-CAserial", fsPathStr c.authority.srlPath] ++
      ["-CAcreateserial"] ++
      ["-in", fsPathStr c.csr_path, "-out", fsPathStr c.crt_path,
        "-extensions", "v3_req", "-extfile", fsPathStr c.conf_path] ∧
    c.signParams true =
      ["-req", "-sha256", "-days", "730",
        "-CA", fsPathStr c.authority.pemPath,
        "-CAkey", fsPathStr c.authority.keyPath,
        "-CAserial", fsPathStr c.authority.srlPath] ++
      ["-in", fsPathStr c.csr_path, "-out", fsPathStr c.crt_path,
        "-extensions", "v3_req", "-extfile", fsPathStr c.conf_path] ∧
    "-CAcreateserial" ∈ c.signParams false ∧
    "-CAcreateserial" ∉ c.signParams true := by
  refine ⟨rfl, rfl, by simp [Certificate.signParams], ?_⟩
  intro hmem
  simp only [Certificate.signParams, if_true, List.append_assoc, List.cons_append,
    List.nil_append, List.mem_cons, List.not_mem_nil, or_false] at hmem
  rcases hmem with h|h|h|h|h|h|h|h|h|h|h|h|h|h|h|h|h|h
  all_goals first
    | exact absurd h (by decide)
    | exact absurd h.symm (fsPathStr_ne _ _ (by decide))

/-- The filesystem state reached inside `create` right before the signing
step, assuming the earlier steps succeeded: reset, directory creation,
config write, key file, CSR file. -/
def Certificate.preSignFS (c : Certificate) (fs : FS) : FS :=
  ((c.build_certificate_conf ((c.delete fs).mkdirParents c.rootPath)).writeFile
    c.key_path).writeFile c.csr_path

/-- The full, in-order step sequence of a successful `create`. -/
def Certificate.fullTrace (c : Certificate) (fs : FS) : List Event :=
  [Event.reset, Event.mkdirRoot c.rootPath,
   Event.gather2 (Event.writeConf c.conf_path) (Event.run "openssl" c.genrsaArgs),
   Event.run "openssl" c.reqArgs,
   Event.run "openssl"
     ("x509" :: c.signParams ((c.preSignFS fs).fileExists c.authority.srlPath)),
   Event.chmod c.crt_path 420,
   Event.chmod c.key_path 420]

/-- When every external invocation succeeds, `create` performs exactly the
full step sequence. -/
theorem create_trace_ok (c : Certificate) (cmd : Cmd) (fs : FS)
    (hcmd : ∀ t a, cmd t a = Except.ok ()) :
    (c.create cmd fs).trace = c.fullTrace fs := by
  simp [Certificate.create, hcmd, Certificate.fullTrace, Certificate.preSignFS]

/-- Whatever the executor answers, the observed steps are an in-order
prefix of the full step sequence. -/
theorem create_trace_initial_segment (c : Certificate) (cmd : Cmd) (fs : FS) :
    ∃ t, (c.create cmd fs).trace ++ t = c.fullTrace fs := by
  cases hg : cmd "openssl" c.genrsaArgs with
  | error e =>
    refine ⟨[Event.run "openssl" c.reqArgs,
      Event.run "openssl"
        ("x509" :: c.signParams ((c.preSignFS fs).fileExists c.authority.srlPath)),
      Event.chmod c.crt_path 420, Event.chmod c.key_path 420], ?_⟩
    simp [Certificate.create, hg, Certificate.fullTrace]
  | ok u =>
    cases u
    cases hr : cmd "openssl" c.reqArgs with
    | error e =>
      refine ⟨[Event.run "openssl"
          ("x509" :: c.signParams ((c.preSignFS fs).fileExists c.authority.srlPath)),
        Event.chmod c.crt_path 420, Event.chmod c.key_path 420], ?_⟩
      simp [Certificate.create, hg, hr, Certificate.fullTrace]
    | ok v =>
      cases v
      cases hs : cmd "openssl"
          ("x509" :: c.signParams ((c.preSignFS fs).fileExists c.authority.srlPath)) with
      | error e =>
        refine ⟨[Event.chmod c.crt_path 420, Event.chmod c.key_path 420], ?_⟩
        simp only [Certificate.preSignFS, Certificate.build_certificate_conf] at hs
        simp [Certificate.create, hg, hr, hs, Certificate.fullTrace,
          Certificate.preSignFS, Certificate.build_certificate_conf]
      | ok w =>
        cases w
        refine ⟨[], ?_⟩
        simp only [Certificate.preSignFS, Certificate.build_certificate_conf] at hs
        simp [Certificate.create, hg, hr, hs, Certificate.fullTrace,
          Certificate.preSignFS, Certificate.build_certificate_conf]

/-- C2: every `create` run performs reset, directory creation, the joint
config-write/key-generation step, CSR creation, signing and the two
permission changes in exactly this order — under a fully successful
executor the trace is exactly this sequence, and under any executor the
trace is an in-order prefix of it (a later step never precedes an earlier
one, and nothing runs past a failed step). -/
theorem create_step_order (c : Certificate) (fs : FS) :
    (∀ cmd : Cmd, (∀ t a, cmd t a = Except.ok ()) →
      (c.create cmd fs).trace =
        [Event.reset, Event.mkdirRoot c.rootPath,
         Event.gather2 (Event.writeConf c.conf_path) (Event.run "openssl" c.genrsaArgs),
         Event.run "openssl" c.reqArgs,
         Event.run "openssl"
           ("x509" :: c.signParams ((c.preSignFS fs).fileExists c.authority.srlPath)),
         Event.chmod c.crt_path 420,
         Event.chmod c.key_path 420]) ∧
    (∀ cmd : Cmd, ∃ t, (c.create cmd fs).trace ++ t = c.fullTrace fs) :=
  ⟨fun cmd hcmd => create_trace_ok c cmd fs hcmd, fun cmd => create_trace_initial_segment c cmd fs⟩

/-- The executor that always succeeds (for witnesses). -/
def cmdOk : Cmd := fun _ _ => Except.ok ()

/-- C2 witness: the step order at a concrete certificate on an empty
filesystem with an always-succeeding executor. -/
theorem create_step_order_witness :
    (certEx.create cmdOk { files := [], dirs := [] }).trace =
      [Event.reset, Event.mkdirRoot certEx.rootPath,
       Event.gather2 (Event.writeConf certEx.conf_path)
         (Event.run "openssl" certEx.genrsaArgs),
       Event.run "openssl" certEx.reqArgs,
       Event.run "openssl"
         ("x509" :: certEx.signParams
           ((certEx.preSignFS { files := [], dirs := [] }).fileExists
             certEx.authority.srlPath)),
       Event.chmod certEx.crt_path 420,
       Event.chmod certEx.key_path 420] :=
  (create_step_order certEx { files := [], dirs := [] }).1 cmdOk (fun _ _ => rfl)

/-- Appending different extensions to the same name yields different
strings. -/
theorem name_ext_inj (c : Certificate) {a b : String}
    (h : c.name ++ a = c.name ++ b) : a = b := by
  apply String.ext
  have hd : c.name.data ++ a.data = c.name.data ++ b.data := by
    have h2 := congrArg String.data h
    simpa [String.data_append] using h2
  exact List.append_cancel_left hd

/-- The four artifact paths of one certificate differ pairwise as soon as
their extensions differ. -/
theorem artifact_path_inj (c : Certificate) {a b : String}
    (h : c.rootPath ++ [c.name ++ a] = c.rootPath ++ [c.name ++ b]) : a = b := by
  have h1 := List.append_cancel_left h
  have h2 : c.name ++ a = c.name ++ b := by
    simpa using h1
  exact name_ext_inj c h2

/-- Membership in the files after a `writeFile`. -/
theorem mem_writeFile (fs : FS) (q p : FsPath) :
    p ∈ (fs.writeFile q).files ↔ (p ∈ fs.files ∨ p = q) := by
  by_cases h : fs.files.contains q
  · have hq : q ∈ fs.files := by
      simpa using h
    simp only [FS.writeFile, h, if_true]
    constructor
    · exact Or.inl
    · rintro (hp | rfl)
      · exact hp
      · exact hq
  · have hq : q ∉ fs.files := by
      simpa using h
    simp [FS.writeFile, hq, List.mem_cons]
    tauto

/-- C3: when the executor succeeds on key generation but fails on the CSR
step, `create` propagates exactly that error, the signing invocation never
appears in the trace, and the signed certificate file is absent from the
final filesystem state. -/
theorem create_csr_failure (c : Certificate) (cmd : Cmd) (fs : FS) (e : String)
    (hgen : cmd "openssl" c.genrsaArgs = Except.ok ())
    (hreq : cmd "openssl" c.reqArgs = Except.error e) :
    (c.create cmd fs).result = Except.error e ∧
    (c.create cmd fs).fs.fileExists c.crt_path = false ∧
    (c.create cmd fs).trace =
      [Event.reset, Event.mkdirRoot c.rootPath,
       Event.gather2 (Event.writeConf c.conf_path) (Event.run "openssl" c.genrsaArgs),
       Event.run "openssl" c.reqArgs] ∧
    (∀ args, Event.run "openssl" ("x509" :: args) ∉ (c.create cmd fs).trace) := by
  have hck : c.crt_path ≠ c.key_path := by
    intro h
    have := artifact_path_inj c h
    exact absurd this (by decide)
  have hcc : c.crt_path ≠ c.conf_path := by
    intro h
    have := artifact_path_inj c h
    exact absurd this (by decide)
  have hres : (c.create cmd fs).result = Except.error e ∧
      (c.create cmd fs).fs =
        ((c.build_certificate_conf ((c.delete fs).mkdirParents c.rootPath)).writeFile
          c.key_path) ∧
      (c.create cmd fs).trace =
        [Event.reset, Event.mkdirRoot c.rootPath,
         Event.gather2 (Event.writeConf c.conf_path) (Event.run "openssl" c.genrsaArgs),
         Event.run "openssl" c.reqArgs] := by
    refine ⟨?_, ?_, ?_⟩ <;>
      simp [Certificate.create, hgen, hreq, Certificate.build_certificate_conf]
  refine ⟨hres.1, ?_, hres.2.2, ?_⟩
  · rw [hres.2.1]
    have hmem : c.crt_path ∉
        ((c.build_certificate_conf ((c.delete fs).mkdirParents c.rootPath)).writeFile
          c.key_path).files := by
      rw [mem_writeFile]
      rintro (hin | h)
      · have hin2 : c.crt_path ∈
            (c.build_certificate_conf ((c.delete fs).mkdirParents c.rootPath)).files := hin
        rw [Certificate.build_certificate_conf, mem_writeFile] at hin2
        rcases hin2 with hin3 | h
        · have hin4 : c.crt_path ∈ ((c.delete fs).mkdirParents c.rootPath).files := hin3
          have hin5 : c.crt_path ∈ (c.delete fs).files := hin4
          rw [delete_files, mem_unlinkArtifacts] at hin5
          exact hin5.2.2.2.1 rfl
        · exact hcc h
      · exact hck h
    simpa [FS.fileExists] using hmem
  · intro args hmem
    rw [hres.2.2] at hmem
    simp only [List.mem_cons, List.not_mem_nil, or_false] at hmem
    rcases hmem with h | h | h | h
    · exact Event.noConfusion h
    · exact Event.noConfusion h
    · exact Event.noConfusion h
    · have ha : ("x509" :: args) = c.reqArgs := by
        injection h
      have hhd : some "x509" = some "req" := by
        have h3 := congrArg List.head? ha
        simp only [Certificate.reqArgs, List.head?] at h3
        exact h3
      have hhd2 : ("x509" : String) = "req" := by
        injection hhd
      exact absurd hhd2 (by decide)

/-- An executor that fails exactly on the CSR step (first argument `req`). -/
def cmdFailCsr : Cmd := fun _ args =>
  if args.head? = some "req" then Except.error "csr failed" else Except.ok ()

/-- C3 witness: the CSR-failure behaviour at a concrete certificate on an
empty filesystem. -/
theorem create_csr_failure_witness :
    cmdFailCsr "openssl" certEx.genrsaArgs = Except.ok () ∧
    cmdFailCsr "openssl" certEx.reqArgs = Except.error "csr failed" ∧
    (certEx.create cmdFailCsr { files := [], dirs := [] }).result =
      Except.error "csr failed" ∧
    (certEx.create cmdFailCsr { files := [], dirs := [] }).fs.fileExists
      certEx.crt_path = false :=
  ⟨by decide, by decide,
    (create_csr_failure certEx cmdFailCsr { files := [], dirs := [] } "csr failed"
      (by decide) (by decide)).1,
    (create_csr_failure certEx cmdFailCsr { files := [], dirs := [] } "csr failed"
      (by decide) (by decide)).2.1⟩

/-- C8: the key-generation invocation of every `create` requests a 2048-bit
RSA key (`genrsa … 2048`), and the signing invocation always carries
`-req -sha256 -days 730` as its fixed head, with no input of `create`
able to change these values. -/
theorem fixed_crypto_parameters (c : Certificate) (cmd : Cmd) (fs : FS)
    (hcmd : ∀ t a, cmd t a = Except.ok ()) :
    Event.gather2 (Event.writeConf c.conf_path) (Event.run "openssl" c.genrsaArgs) ∈
      (c.create cmd fs).trace ∧
    Event.run "openssl"
        ("x509" :: c.signParams ((c.preSignFS fs).fileExists c.authority.srlPath)) ∈
      (c.create cmd fs).trace ∧
    c.genrsaArgs = ["genrsa", "-out", fsPathStr c.key_path, "2048"] ∧
    "2048" ∈ c.genrsaArgs ∧
    (∀ b, ∃ rest,
      c.signParams b = ["-req", "-sha256", "-days", "730"] ++ rest) ∧
    (∀ b, "-sha256" ∈ c.signParams b) := by
  rw [create_trace_ok c cmd fs hcmd]
  refine ⟨?_, ?_, rfl, by simp [Certificate.genrsaArgs], ?_, ?_⟩
  · simp [Certificate.fullTrace]
  · simp [Certificate.fullTrace]
  · intro b
    cases b
    · exact ⟨_, rfl⟩
    · exact ⟨_, rfl⟩
  · intro b
    cases b <;> simp [Certificate.signParams]

/-- C8 witness: the fixed parameters at a concrete certificate with the
always-succeeding executor. -/
theorem fixed_crypto_parameters_witness :
    Event.gather2 (Event.writeConf certEx.conf_path)
        (Event.run "openssl" certEx.genrsaArgs) ∈
      (certEx.create cmdOk { files := [], dirs := [] }).trace ∧
    certEx.genrsaArgs = ["genrsa", "-out", fsPathStr certEx.key_path, "2048"] ∧
    "2048" ∈ certEx.genrsaArgs ∧
    "-sha256" ∈ certEx.signParams false :=
  ⟨(fixed_crypto_parameters certEx cmdOk { files := [], dirs := [] }
      (fun _ _ => rfl)).1,
    (fixed_crypto_parameters certEx cmdOk { files := [], dirs := [] }
      (fun _ _ => rfl)).2.2.1,
    (fixed_crypto_parameters certEx cmdOk { files := [], dirs := [] }
      (fun _ _ => rfl)).2.2.2.1,
    (fixed_crypto_parameters certEx cmdOk { files := [], dirs := [] }
      (fun _ _ => rfl)).2.2.2.2.2 false⟩

/-- Body of the config template after the leading newline: everything from
`[req]` to the first domain interpolation. -/
def confBody : String :=
  "[req]\ndistinguished_name = req_distinguished_name\nreq_extensions = v3_req\n\n[req_distinguished_name]\ncountryName = Country Name (2 letter code)\ncountryName_default = US\nstateOrProvinceName = State or Province Name (full name)\nstateOrProvinceName_default = MN\nlocalityName = Locality Name (eg, city)\nlocalityName_default = Minneapolis\norganizationalUnitName\t= Organizational Unit Name (eg, section)\norganizationalUnitName_default\t= Domain Control Validated\ncommonName = Internet Widgits Ltd\ncommonName_max\t= 64\n\n[ v3_req ]\n# Extensions to add to a certificate request\nbasicConstraints = CA:FALSE\nkeyUsage = nonRepudiation, digitalSignature, keyEncipherment\nsubjectAltName = @alt_names\n\n[alt_names]\nDNS.1 = "

set_option maxRecDepth 8000 in
/-- C7: for every domain (with no trailing whitespace, as any DNS name),
the generated configuration text is the fixed template with only the
domain varying: a fixed head, a `v3_req` section carrying
`basicConstraints = CA:FALSE`, the three key usages and
`subjectAltName = @alt_names`, and a final `alt_names` section holding
exactly the two entries `DNS.1 = <domain>` and `DNS.2 = *.<domain>`. -/
theorem confText_structure (c : Certificate)
    (hd : c.domain.data.reverse.dropWhile Char.isWhitespace = c.domain.data.reverse) :
    c.confText =
      "[req]\ndistinguished_name = req_distinguished_name\nreq_extensions = v3_req\n\n[req_distinguished_name]\ncountryName = Country Name (2 letter code)\ncountryName_default = US\nstateOrProvinceName = State or Province Name (full name)\nstateOrProvinceName_default = MN\nlocalityName = Locality Name (eg, city)\nlocalityName_default = Minneapolis\norganizationalUnitName\t= Organizational Unit Name (eg, section)\norganizationalUnitName_default\t= Domain Control Validated\ncommonName = Internet Widgits Ltd\ncommonName_max\t= 64\n" ++
      ("\n[ v3_req ]\n# Extensions to add to a certificate request\nbasicConstraints = CA:FALSE\nkeyUsage = nonRepudiation, digitalSignature, keyEncipherment\nsubjectAltName = @alt_names\n" ++
       ("\n[alt_names]\nDNS.1 = " ++
        (c.domain ++ ("\nDNS.2 = *." ++ c.domain)))) := by
  apply String.ext
  have hB : confBody.data =
      ("[req]\ndistinguished_name = req_distinguished_name\nreq_extensions = v3_req\n\n[req_distinguished_name]\ncountryName = Country Name (2 letter code)\ncountryName_default = US\nstateOrProvinceName = State or Province Name (full name)\nstateOrProvinceName_default = MN\nlocalityName = Locality Name (eg, city)\nlocalityName_default = Minneapolis\norganizationalUnitName\t= Organizational Unit Name (eg, section)\norganizationalUnitName_default\t= Domain Control Validated\ncommonName = Internet Widgits Ltd\ncommonName_max\t= 64\n" : String).data ++
      (("\n[ v3_req ]\n# Extensions to add to a certificate request\nbasicConstraints = CA:FALSE\nkeyUsage = nonRepudiation, digitalSignature, keyEncipherment\nsubjectAltName = @alt_names\n" : String).data ++
       ("\n[alt_names]\nDNS.1 = " : String).data) := by decide
  have hgoal : ∀ dl : List Char, dl = c.domain.data →
      confBody.data ++ (dl ++ (confLit2.data ++ dl)) =
      ("[req]\ndistinguished_name = req_distinguished_name\nreq_extensions = v3_req\n\n[req_distinguished_name]\ncountryName = Country Name (2 letter code)\ncountryName_default = US\nstateOrProvinceName = State or Province Name (full name)\nstateOrProvinceName_default = MN\nlocalityName = Locality Name (eg, city)\nlocalityName_default = Minneapolis\norganizationalUnitName\t= Organizational Unit Name (eg, section)\norganizationalUnitName_default\t= Domain Control Validated\ncommonName = Internet Widgits Ltd\ncommonName_max\t= 64\n" ++
        ("\n[ v3_req ]\n# Extensions to add to a certificate request\nbasicConstraints = CA:FALSE\nkeyUsage = nonRepudiation, digitalSignature, keyEncipherment\nsubjectAltName = @alt_names\n" ++
         ("\n[alt_names]\nDNS.1 = " ++
          (c.domain ++ ("\nDNS.2 = *." ++ c.domain))))).data := by
    intro dl hdl
    subst hdl
    simp only [String.data_append, hB, List.append_assoc]
    rfl
  have h0 : c.confText.data =
      (((confTemplate c.domain).data.dropWhile Char.isWhitespace).reverse.dropWhile
        Char.isWhitespace).reverse := rfl
  rw [h0]
  have h1 : (confTemplate c.domain).data =
      confLit1.data ++ (c.domain.data ++ (confLit2.data ++ (c.domain.data ++ ['\n']))) := by
    show (confLit1 ++ c.domain ++ confLit2 ++ c.domain ++ "\n").data = _
    simp [String.data_append, List.append_assoc]
  rw [h1, List.dropWhile_append]
  have h2 : confLit1.data.dropWhile Char.isWhitespace = confBody.data := by decide
  rw [h2]
  have h3 : confBody.data.isEmpty = false := by decide
  simp only [h3, Bool.false_eq_true, if_false]
  have h4 : (confBody.data ++
      (c.domain.data ++ (confLit2.data ++ (c.domain.data ++ ['\n'])))).reverse =
      '\n' :: (c.domain.data.reverse ++
        (confLit2.data.reverse ++ (c.domain.data.reverse ++ confBody.data.reverse))) := by
    simp [List.reverse_append, List.append_assoc]
  rw [h4]
  have h5 : Char.isWhitespace '\n' = true := by decide
  rw [List.dropWhile_cons_of_pos h5, List.dropWhile_append, hd]
  cases hE : c.domain.data.reverse with
  | nil =>
    have hd0 : c.domain.data = [] := by
      simpa using congrArg List.reverse hE
    rw [if_pos (show ([] : List Char).isEmpty = true from rfl)]
    simp only [List.nil_append]
    rw [List.dropWhile_append]
    have h6 : confLit2.data.reverse.dropWhile Char.isWhitespace = confLit2.data.reverse := by
      decide
    rw [h6]
    have h7 : confLit2.data.reverse.isEmpty = false := by decide
    simp only [h7, Bool.false_eq_true, if_false]
    have h8 : (confLit2.data.reverse ++ confBody.data.reverse).reverse =
        confBody.data ++ confLit2.data := by
      simp
    rw [h8]
    have := hgoal [] hd0.symm
    simpa [hd0] using this
  | cons a t =>
    rw [← hE]
    have h9 : c.domain.data.reverse.isEmpty = false := by
      rw [hE]
      rfl
    simp only [h9, Bool.false_eq_true, if_false]
    have h10 : (c.domain.data.reverse ++
        (confLit2.data.reverse ++ (c.domain.data.reverse ++ confBody.data.reverse))).reverse =
        confBody.data ++ (c.domain.data ++ (confLit2.data ++ c.domain.data)) := by
      simp [List.reverse_append, List.append_assoc]
    rw [h10]
    exact hgoal c.domain.data rfl

/-- C7 witness: the configuration text for `example.test`. -/
theorem confText_structure_witness :
    (certEx.domain.data.reverse.dropWhile Char.isWhitespace =
      certEx.domain.data.reverse) ∧
    certEx.confText =
      "[req]\ndistinguished_name = req_distinguished_name\nreq_extensions = v3_req\n\n[req_distinguished_name]\ncountryName = Country Name (2 letter code)\ncountryName_default = US\nstateOrProvinceName = State or Province Name (full name)\nstateOrProvinceName_default = MN\nlocalityName = Locality Name (eg, city)\nlocalityName_default = Minneapolis\norganizationalUnitName\t= Organizational Unit Name (eg, section)\norganizationalUnitName_default\t= Domain Control Validated\ncommonName = Internet Widgits Ltd\ncommonName_max\t= 64\n" ++
      ("\n[ v3_req ]\n# Extensions to add to a certificate request\nbasicConstraints = CA:FALSE\nkeyUsage = nonRepudiation, digitalSignature, keyEncipherment\nsubjectAltName = @alt_names\n" ++
       ("\n[alt_names]\nDNS.1 = " ++
        ("example.test" ++ ("\nDNS.2 = *." ++ "example.test")))) :=
  ⟨by decide, confText_structure certEx (by decide)⟩
